import Mathlib

/-!
Verification development for the ff-log-cli utility.

The program manages log files in one target directory: it can list them,
delete them, move them into a `bak` subdirectory, or interactively show the
contents of one of them.

We shallowly embed the program over an explicit filesystem state:

* a path is a list of components (`List String`);
* the filesystem is a finite association list of file paths to file data
  together with a list of directory paths; file data is `Option String`,
  where `none` models a file that exists but cannot be read as text
  (so that read_to_string failures are representable);
* console output is modelled as the list of emitted strings, standard input
  as the one line the View operation reads;
* a `panic` / `expect` failure is an `Except.error`, an `io::Error` returned
  from `main` or `view_log_files` is reported by the corresponding result
  constructor.

Each definition mirrors one function of the source (`main.rs`,
`commands/backup.rs`, `commands/delete.rs`, `commands/list.rs`,
`commands/view.rs`).
-/

namespace FFLog

/-- A filesystem path, as its list of components. -/
abbrev FPath := List String

/-- Filesystem state: an association list from file paths to file data
(first binding wins), plus the set of directory paths.  File data
`some c` is a file with text content `c`; file data `none` is a file whose
content cannot be read as text.  `readDirFails` lists directories whose
enumeration fails with an I/O error even though the directory exists
(permission denied, or the directory vanished between the `is_dir` check
and the `read_dir` call), so that enumeration-level failures are
representable. -/
structure FS where
  files : List (FPath × Option String)
  dirs : List FPath
  readDirFails : List FPath
deriving Repr, DecidableEq

/-- The data of the file at `p`, if a file exists there. -/
def FS.fileData (fs : FS) (p : FPath) : Option (Option String) :=
  (fs.files.find? (fun e => e.1 == p)).map (fun e => e.2)

/-- Whether `p` is a directory (`Path::is_dir`). -/
def FS.isDir (fs : FS) (p : FPath) : Bool :=
  fs.dirs.contains p

/-- Whether `p` is a regular file (`Path::is_file`). -/
def FS.isFile (fs : FS) (p : FPath) : Bool :=
  (fs.fileData p).isSome

/-- Whether enumerating the existing directory `p` fails with an I/O
error (`fs::read_dir` or a yielded entry returning `Err`). -/
def FS.readDirFailsAt (fs : FS) (p : FPath) : Bool :=
  fs.readDirFails.contains p

/-- Write file data at `p` (the new binding shadows any old one). -/
def FS.setFile (fs : FS) (p : FPath) (d : Option String) : FS :=
  ⟨(p, d) :: fs.files, fs.dirs, fs.readDirFails⟩

/-- Remove the file at `p`. -/
def FS.removeFile (fs : FS) (p : FPath) : FS :=
  ⟨fs.files.filter (fun e => !(e.1 == p)), fs.dirs, fs.readDirFails⟩

/-- Add a directory at `p`. -/
def FS.addDir (fs : FS) (p : FPath) : FS :=
  ⟨fs.files, p :: fs.dirs, fs.readDirFails⟩

/-- `std::fs::create_dir`: fails if an entry already exists at `p` or the
parent of `p` is not a directory. -/
def FS.createDir (fs : FS) (p : FPath) : Except String FS :=
  if fs.isFile p || fs.isDir p then .error "File exists"
  else if !(fs.isDir p.dropLast) then .error "No such file or directory"
  else .ok (fs.addDir p)

/-- `std::fs::rename` of a regular file: fails if the source is not a file,
the destination is a directory, or the destination parent is missing;
otherwise moves the data, replacing any file already at the destination. -/
def FS.rename (fs : FS) (src dst : FPath) : Except String FS :=
  match fs.fileData src with
  | none => .error "No such file or directory"
  | some d =>
    if fs.isDir dst then .error "Is a directory"
    else if !(fs.isDir dst.dropLast) then .error "No such file or directory"
    else .ok ((fs.removeFile src).setFile dst d)

/-- `std::fs::remove_file`: succeeds exactly when a regular file is at `p`. -/
def FS.removeFileCall (fs : FS) (p : FPath) : Except String FS :=
  match fs.fileData p with
  | none => .error "No such file or directory"
  | some _ => .ok (fs.removeFile p)

/-- `std::fs::read_to_string`. -/
def FS.readToString (fs : FS) (p : FPath) : Except String String :=
  match fs.fileData p with
  | some (some c) => .ok c
  | some none => .error "stream did not contain valid UTF-8"
  | none => .error "No such file or directory"

/-- The direct children of directory `p`: every recorded path (file or
directory) whose parent is `p`, duplicates removed.  The order is the
enumeration order the model reports for `read_dir`. -/
def FS.children (fs : FS) (p : FPath) : List FPath :=
  (((fs.files.map (fun e => e.1)) ++ fs.dirs).filter
    (fun q => decide (q ≠ []) && (q.dropLast == p))).dedup

/-- Rendering of a path for console display (`Path::display`). -/
def pathDisplay (p : FPath) : String :=
  String.intercalate "/" p

/-- Rendering of a final path component for console display. -/
def fileNameDisplay (p : FPath) : String :=
  p.getLast?.getD ""

/-- The backup directory of the file at `path`: `parent/bak`. -/
def bakDir (path : FPath) : FPath :=
  path.dropLast ++ ["bak"]

/-- `commands/backup.rs`, `backup_log_file`.  The result is
`.error msg` when the function panics (a failed `expect`), and otherwise
`.ok` with the new filesystem and the printed lines.  A failed rename is
only reported on the console. -/
def backup_log_file (fs : FS) (path : FPath) : Except String (FS × List String) :=
  match path.getLast? with
  | none => .error "not a file"
  | some file_name =>
    let l0 := "Moving " ++ file_name ++ "..."
    let new_path := bakDir path
    let ensured : Except String FS :=
      if fs.isDir new_path then .ok fs
      else
        match fs.createDir new_path with
        | .ok fs1 => .ok fs1
        | .error _ => .error "could not create backup dir"
    match ensured with
    | .error m => .error m
    | .ok fs1 =>
      match fs1.rename path (new_path ++ [file_name]) with
      | .ok fs2 => .ok (fs2, [l0, "Moved."])
      | .error err => .ok (fs1, [l0, "Failed: " ++ err])

/-- `commands/delete.rs`, `delete_log_file`.  Never panics: a failed
removal is only reported on the console. -/
def delete_log_file (fs : FS) (path : FPath) : FS × List String :=
  let l0 := "Removing " ++ pathDisplay path ++ "..."
  match fs.removeFileCall path with
  | .ok fs1 => (fs1, [l0, "Removed."])
  | .error err => (fs, [l0, "Failed: " ++ err])

/-- `commands/list.rs`, `list_log_file`.  `.error` is the `expect` panic on
a path with no final component. -/
def list_log_file (path : FPath) : Except String (List String) :=
  match path.getLast? with
  | none => .error "not a file"
  | some file_name => .ok ["- " ++ file_name]

/-- The numbered listing the View operation prints (header line plus one
`<i+1>. <file-name>` line per file). -/
def viewListing (log_files : List FPath) : List String :=
  "Available log files:" ::
    log_files.enum.map (fun e => toString (e.1 + 1) ++ ". " ++ fileNameDisplay e.2)

/-- The regular files of `log_dir`, in enumeration order (step 1 of the
View operation). -/
def viewFiles (fs : FS) (log_dir : FPath) : List FPath :=
  (fs.children log_dir).filter (fun q => fs.isFile q)

/-- The Unicode White_Space property, as used by `char::is_whitespace`
(the whitespace notion of `str::trim`). -/
def rustIsWhitespace (c : Char) : Bool :=
  c.toNat == 0x09 || c.toNat == 0x0A || c.toNat == 0x0B || c.toNat == 0x0C ||
  c.toNat == 0x0D || c.toNat == 0x20 || c.toNat == 0x85 || c.toNat == 0xA0 ||
  c.toNat == 0x1680 ||
  (decide (0x2000 ≤ c.toNat) && decide (c.toNat ≤ 0x200A)) ||
  c.toNat == 0x2028 || c.toNat == 0x2029 || c.toNat == 0x202F ||
  c.toNat == 0x205F || c.toNat == 0x3000

/-- Models `str::trim`: leading and trailing Unicode whitespace removed. -/
def trimString (s : String) : String :=
  String.mk
    (((s.toList.dropWhile rustIsWhitespace).reverse.dropWhile
      rustIsWhitespace).reverse)

/-- Models `str::parse::<usize>` on the trimmed input: an optional leading
plus sign followed by at least one decimal digit, failing on values that
overflow usize (64-bit platforms: values of 2^64 and above). -/
def parseUsize (s : String) : Option Nat :=
  let cs :=
    match s.toList with
    | '+' :: rest => rest
    | cs => cs
  if cs ≠ [] ∧ cs.all (fun c => c.isDigit) then
    let v := cs.foldl (fun a c => a * 10 + (c.toNat - 48)) 0
    if v < 2 ^ 64 then some v else none
  else none

/-- The 50-character separator line (`"=".repeat(50)`). -/
def sepLine : String :=
  String.mk (List.replicate 50 '=')

/-- `commands/view.rs`, `view_log_files`.  `stdin` is the line read from
standard input (console writes and the read itself are modelled as always
succeeding).  The initial directory read fails exactly when the path is
not a directory; the additional failure mode of an enumeration on an
existing directory is modelled at the call site in `main`
(`FS.readDirFailsAt`).  On success the result carries the printed lines
together with the list of paths passed to `read_to_string`, so that
theorems can speak about which file contents were read. -/
def view_log_files (fs : FS) (log_dir : FPath) (stdin : String) :
    Except String (List String × List FPath) :=
  if fs.isDir log_dir = false then .error "No such file or directory" else
  let log_files := viewFiles fs log_dir
  if log_files.isEmpty then
    .ok (["No log files found in directory: " ++ pathDisplay log_dir], [])
  else
    let base := viewListing log_files ++
      ["Enter the number of the file you want to view: "]
    match parseUsize (trimString stdin) with
    | none => .ok (base ++ ["Invalid input. Please enter a number."], [])
    | some choice =>
      if choice = 0 ∨ log_files.length < choice then
        .ok (base ++
          ["Invalid selection. Please choose a number between 1 and " ++
            toString log_files.length ++ "."], [])
      else
        let selected := log_files.getD (choice - 1) []
        let header := "\nContents of " ++ fileNameDisplay selected ++ ":"
        match fs.readToString selected with
        | .ok content => .ok (base ++ [header, sepLine, content], [selected])
        | .error e =>
          .ok (base ++ [header, sepLine, "Error reading file: " ++ e], [selected])

/-- The operation selected on the command line (`main.rs`). -/
inductive Operation where
  | List
  | Delete
  | Backup
  | View
deriving Repr, DecidableEq

/-- `main.rs`, the `match operation_arg.as_ref()` inside `Config::new`. -/
def parseOperation (s : String) : Operation :=
  match s with
  | "backup" => .Backup
  | "delete" => .Delete
  | "list" => .List
  | "view" => .View
  | _ => .List

/-- `main.rs`, `Config`. -/
structure Config where
  operation : Operation
  fflogs_dir : String
deriving Repr, DecidableEq

/-- `main.rs`, `Config::new`.  `.error` is the panic on fewer than three
command-line arguments. -/
def Config.new (args : List String) : Except String Config :=
  if args.length < 3 then
    .error "not enough arguments (you must provide a FFlogs directory path"
  else
    .ok ⟨parseOperation (args.getD 1 ""), args.getD 2 ""⟩

/-- The console line printed when the enumeration loop of `main` skips a
directory entry. -/
def ignoreLine (p : FPath) : String :=
  "Ignoring path as it is a directory: " ++ pathDisplay p

/-- The enumeration loop of `main` for the List, Delete and Backup
operations: each non-directory entry is handed to the selected command,
each directory entry is skipped with a notice.  `.error` is a panic inside
a command, which aborts the whole run.  The View arm mirrors the
`unreachable!()` of the source. -/
def runEntries (op : Operation) (fs : FS) (qs : List FPath) :
    Except String (FS × List String) :=
  match qs with
  | [] => .ok (fs, [])
  | q :: rest =>
    if fs.isDir q then
      match runEntries op fs rest with
      | .error m => .error m
      | .ok (fs2, ls) => .ok (fs2, ignoreLine q :: ls)
    else
      match op with
      | .List =>
        match list_log_file q with
        | .error m => .error m
        | .ok ls =>
          match runEntries op fs rest with
          | .error m => .error m
          | .ok (fs2, ls2) => .ok (fs2, ls ++ ls2)
      | .Delete =>
        match delete_log_file fs q with
        | (fs1, ls) =>
          match runEntries op fs1 rest with
          | .error m => .error m
          | .ok (fs2, ls2) => .ok (fs2, ls ++ ls2)
      | .Backup =>
        match backup_log_file fs q with
        | .error m => .error m
        | .ok (fs1, ls) =>
          match runEntries op fs1 rest with
          | .error m => .error m
          | .ok (fs2, ls2) => .ok (fs2, ls ++ ls2)
      | .View => .error "internal error: entered unreachable code"

/-- Suffix appended to the home directory when the directory argument is
the literal token `default` (the Rust format string uses literal
backslashes). -/
def defaultSuffix : String :=
  "\\Advanced Combat Tracker\\FFXIVLogs"

/-- Split a list of characters at every slash. -/
def splitOnSlash : List Char → List (List Char)
  | [] => [[]]
  | c :: rest =>
    let r := splitOnSlash rest
    if c = '/' then [] :: r
    else (c :: r.headD []) :: r.tail

/-- Split a directory string into path components (unix separators, as in
the `cfg(unix)` build), dropping empty components. -/
def splitPath (s : String) : FPath :=
  ((splitOnSlash s.toList).map String.mk).filter (fun c => c ≠ "")

/-- The directory string `main` ends up operating on, as a function of the
raw arguments and the home environment variable. -/
def resolvedDirStr (args : List String) (env : Option String) : String :=
  let d := args.getD 2 ""
  if d == "default" then env.getD "" ++ defaultSuffix else d

/-- The observable outcome of one process run. -/
inductive MainResult where
  | ok (lines : List String)
  | ioError (msg : String)
  | panicked (msg : String)
deriving Repr, DecidableEq

/-- The part of `main` that follows configuration parsing: validate the
target path, then run the selected operation (View directly, the others
through the enumeration loop). -/
def dispatchRun (op : Operation) (fs : FS) (path : FPath)
    (stdin : String) : MainResult :=
  if fs.isDir path = false then
    .ioError "not a valid directory"
  else
    match op with
    | .View =>
      match view_log_files fs path stdin with
      | .error e => .ioError e
      | .ok out => .ok out.1
    | opx =>
      if fs.readDirFailsAt path = true then
        .ioError "Permission denied"
      else
        match runEntries opx fs (fs.children path) with
        | .error m => .panicked m
        | .ok out => .ok out.2

/-- `main.rs`, `main`.  `env` is the `HOME` variable, `stdin` the line the
View operation may read.  `.ok` carries the printed lines (the final
elapsed-duration line, whose text depends on wall-clock time, is not
modelled); `.ioError` is a `Result::Err` return; `.panicked` is a panic.
The per-run elapsed timer has no observable effect and is omitted. -/
def mainRun (args : List String) (env : Option String) (fs : FS)
    (stdin : String) : MainResult :=
  match env with
  | none => .panicked "No HOME directory"
  | some app_data =>
    match Config.new args with
    | .error m => .panicked m
    | .ok config =>
      let fflogs_dir :=
        if config.fflogs_dir == "default" then app_data ++ defaultSuffix
        else config.fflogs_dir
      dispatchRun config.operation fs (splitPath fflogs_dir) stdin

/-! ### Basic lemmas about the filesystem model -/

theorem FS.fileData_setFile_self (fs : FS) (p : FPath) (d : Option String) :
    (fs.setFile p d).fileData p = some d := by
  simp [FS.setFile, FS.fileData, List.find?]

theorem FS.fileData_setFile_of_ne (fs : FS) (p q : FPath) (d : Option String)
    (h : q ≠ p) : (fs.setFile p d).fileData q = fs.fileData q := by
  simp only [FS.setFile, FS.fileData, List.find?]
  have : (p == q) = false := by simp [h.symm]
  simp [this]

theorem findFilterKeyNone (l : List (FPath × Option String)) (p : FPath) :
    (l.filter (fun e => !(e.1 == p))).find? (fun e => e.1 == p) = none := by
  refine List.find?_eq_none.2 (fun x hx => ?_)
  have hmem := List.mem_filter.1 hx
  simp at hmem
  simp [hmem.2]

theorem findFilterKeyEq (l : List (FPath × Option String)) (p q : FPath)
    (h : q ≠ p) :
    (l.filter (fun e => !(e.1 == p))).find? (fun e => e.1 == q) =
      l.find? (fun e => e.1 == q) := by
  induction l with
  | nil => rfl
  | cons a t ih =>
    by_cases hap : a.1 = p
    · have h1 : (a.1 == p) = true := by simp [hap]
      have h2 : (a.1 == q) = false := by
        simp [hap]
        exact fun hq => h hq.symm
      simp [List.filter, List.find?, h1, h2, ih]
    · have h1 : (a.1 == p) = false := by simp [hap]
      by_cases haq : a.1 = q
      · have h2 : (a.1 == q) = true := by simp [haq]
        simp [List.filter, List.find?, h1, h2]
      · have h2 : (a.1 == q) = false := by simp [haq]
        simp [List.filter, List.find?, h1, h2, ih]

theorem FS.fileData_removeFile_self (fs : FS) (p : FPath) :
    (fs.removeFile p).fileData p = none := by
  simp [FS.removeFile, FS.fileData, findFilterKeyNone]

theorem FS.fileData_removeFile_of_ne (fs : FS) (p q : FPath) (h : q ≠ p) :
    (fs.removeFile p).fileData q = fs.fileData q := by
  simp [FS.removeFile, FS.fileData, findFilterKeyEq _ _ _ h]

theorem FS.isDir_setFile (fs : FS) (p q : FPath) (d : Option String) :
    (fs.setFile p d).isDir q = fs.isDir q := rfl

theorem FS.isDir_removeFile (fs : FS) (p q : FPath) :
    (fs.removeFile p).isDir q = fs.isDir q := rfl

theorem FS.fileData_addDir (fs : FS) (p q : FPath) :
    (fs.addDir p).fileData q = fs.fileData q := rfl

theorem FS.isDir_addDir_self (fs : FS) (p : FPath) :
    (fs.addDir p).isDir p = true := by
  simp [FS.addDir, FS.isDir, List.contains_cons]

theorem FS.isDir_addDir_of_ne (fs : FS) (p q : FPath) (h : q ≠ p) :
    (fs.addDir p).isDir q = fs.isDir q := by
  simp [FS.addDir, FS.isDir, List.contains_cons, h]

/-- Every path reported by `FS.children` has a final component. -/
theorem FS.children_ne_nil (fs : FS) (p : FPath) :
    ∀ q ∈ fs.children p, q ≠ [] := by
  intro q hq
  have hq' := List.mem_dedup.1 hq
  have := (List.mem_filter.1 hq').2
  simp at this
  exact this.1

/-! ### Behavior of the Backup operation -/

theorem bakDir_dropLast (p : FPath) : (bakDir p).dropLast = p.dropLast := by
  simp [bakDir]

theorem ne_bakDest (p : FPath) (n : String) (hp : p ≠ []) :
    p ≠ bakDir p ++ [n] := by
  intro h
  have := congrArg List.length h
  have hlen : p.dropLast.length = p.length - 1 := List.length_dropLast p
  have hpos : 0 < p.length := List.length_pos.2 hp
  simp [bakDir, hlen] at this
  omega

theorem bakDir_ne_bakDest (p : FPath) (n : String) :
    bakDir p ≠ bakDir p ++ [n] := by
  intro h
  have := congrArg List.length h
  simp at this

/-- Successful run of `backup_log_file`: if the source file exists, the
backup directory is a directory or can be created, and the destination is
not a directory, then the file is moved to `parent/bak/filename` with its
data intact, and nothing else changes. -/
theorem backup_success (fs : FS) (p : FPath) (n : String) (d : Option String)
    (hn : p.getLast? = some n)
    (hsrc : fs.fileData p = some d)
    (hbak : fs.isDir (bakDir p) = true ∨
      (fs.fileData (bakDir p) = none ∧ fs.isDir (bakDir p) = false ∧
        fs.isDir p.dropLast = true))
    (hdst : fs.isDir (bakDir p ++ [n]) = false) :
    ∃ fs2,
      backup_log_file fs p = .ok (fs2, ["Moving " ++ n ++ "...", "Moved."]) ∧
      fs2.fileData p = none ∧
      fs2.fileData (bakDir p ++ [n]) = some d ∧
      fs2.isDir (bakDir p) = true ∧
      fs2.isDir (bakDir p ++ [n]) = false ∧
      (∀ q, q ≠ p → q ≠ bakDir p ++ [n] →
        fs2.fileData q = fs.fileData q) := by
  have hp : p ≠ [] := by
    intro h
    rw [h] at hn
    simp at hn
  have hpd : p ≠ bakDir p ++ [n] := ne_bakDest p n hp
  rcases hbak with hdir | ⟨hfile, hnotdir, hparent⟩
  · refine ⟨(fs.removeFile p).setFile (bakDir p ++ [n]) d, ?_, ?_, ?_, ?_, ?_, ?_⟩
    · simp only [backup_log_file, hn, hdir, if_true, FS.rename, hsrc,
        bakDir_dropLast]
      simp [hdst, hdir, bakDir_dropLast]
    · rw [FS.fileData_setFile_of_ne _ _ _ _ hpd, FS.fileData_removeFile_self]
    · rw [FS.fileData_setFile_self]
    · rw [FS.isDir_setFile, FS.isDir_removeFile]
      exact hdir
    · rw [FS.isDir_setFile, FS.isDir_removeFile]
      exact hdst
    · intro q hq1 hq2
      rw [FS.fileData_setFile_of_ne _ _ _ _ hq2,
        FS.fileData_removeFile_of_ne _ _ _ hq1]
  · refine ⟨((fs.addDir (bakDir p)).removeFile p).setFile (bakDir p ++ [n]) d,
      ?_, ?_, ?_, ?_, ?_, ?_⟩
    · have hcd : fs.createDir (bakDir p) = .ok (fs.addDir (bakDir p)) := by
        simp [FS.createDir, FS.isFile, hfile, hnotdir, bakDir_dropLast, hparent]
      have hren : (fs.addDir (bakDir p)).rename p (bakDir p ++ [n]) =
          .ok (((fs.addDir (bakDir p)).removeFile p).setFile
            (bakDir p ++ [n]) d) := by
        have h1 : (fs.addDir (bakDir p)).fileData p = some d := hsrc
        have h2 : (fs.addDir (bakDir p)).isDir (bakDir p ++ [n]) = false := by
          rw [FS.isDir_addDir_of_ne _ _ _ (bakDir_ne_bakDest p n).symm]
          exact hdst
        simp [FS.rename, h1, h2, List.dropLast_concat, FS.isDir_addDir_self]
      simp only [backup_log_file, hn, hnotdir, hcd]
      simp only [Bool.false_eq_true, if_false, hren]
    · rw [FS.fileData_setFile_of_ne _ _ _ _ hpd, FS.fileData_removeFile_self]
    · rw [FS.fileData_setFile_self]
    · rw [FS.isDir_setFile, FS.isDir_removeFile, FS.isDir_addDir_self]
    · rw [FS.isDir_setFile, FS.isDir_removeFile,
        FS.isDir_addDir_of_ne _ _ _ (bakDir_ne_bakDest p n).symm]
      exact hdst
    · intro q hq1 hq2
      rw [FS.fileData_setFile_of_ne _ _ _ _ hq2,
        FS.fileData_removeFile_of_ne _ _ _ hq1, FS.fileData_addDir]

/-- `backup_log_file` panics when the backup directory cannot be created
because an entry named `bak` already exists there that is not a
directory. -/
theorem backup_log_file_createDir_fail (fs : FS) (p : FPath) (n : String)
    (hn : p.getLast? = some n)
    (hnd : fs.isDir (bakDir p) = false)
    (hf : (fs.fileData (bakDir p)).isSome = true) :
    backup_log_file fs p = .error "could not create backup dir" := by
  simp [backup_log_file, hn, hnd, FS.createDir, FS.isFile, hf]

/-! ### Claim C1 -/

/-- Filesystem for the C1 counterexample: directory `d` holds a regular
file `f.log` and a regular file named `bak`. -/
def fsC1 : FS :=
  ⟨[(["d", "bak"], some "y"), (["d", "f.log"], some "x")], [["d"]], []⟩

/-- C1 counterexample: `d/f.log` is an existing file with a final
component, yet Backup does not move it — `backup_log_file` panics while
creating the backup directory (an entry named `bak` already exists as a
file), so the file neither disappears from its original path nor appears
at `d/bak/f.log`. -/
theorem backup_not_always_moves :
    fsC1.fileData ["d", "f.log"] = some (some "x") ∧
    backup_log_file fsC1 ["d", "f.log"] = .error "could not create backup dir" := by
  constructor
  · rfl
  · rfl

/-- C1 (amended): for every file path `F` with a final component that
exists as a regular file, provided the backup directory `parent/bak` is
already a directory or can be created (no file named `bak` is in the way
and the parent is a directory) and no directory occupies the destination,
Backup moves `F`: it no longer exists at its original path and
`parent/bak/filename(F)` holds the original data. -/
theorem backup_moves_file (fs : FS) (p : FPath) (n : String) (d : Option String)
    (hn : p.getLast? = some n)
    (hsrc : fs.fileData p = some d)
    (hbak : fs.isDir (bakDir p) = true ∨
      (fs.fileData (bakDir p) = none ∧ fs.isDir (bakDir p) = false ∧
        fs.isDir p.dropLast = true))
    (hdst : fs.isDir (bakDir p ++ [n]) = false) :
    ∃ fs2,
      backup_log_file fs p = .ok (fs2, ["Moving " ++ n ++ "...", "Moved."]) ∧
      fs2.fileData p = none ∧
      fs2.fileData (bakDir p ++ [n]) = some d := by
  obtain ⟨fs2, h1, h2, h3, -, -, -⟩ := backup_success fs p n d hn hsrc hbak hdst
  exact ⟨fs2, h1, h2, h3⟩

/-- Witness for C1 at a concrete filesystem. -/
theorem backup_moves_file_witness :
    ∃ fs2,
      backup_log_file ⟨[(["d", "f.log"], some "x")], [["d"]], []⟩ ["d", "f.log"] =
        .ok (fs2, ["Moving " ++ "f.log" ++ "...", "Moved."]) ∧
      fs2.fileData ["d", "f.log"] = none ∧
      fs2.fileData (bakDir ["d", "f.log"] ++ ["f.log"]) = some (some "x") :=
  backup_moves_file ⟨[(["d", "f.log"], some "x")], [["d"]], []⟩ ["d", "f.log"]
    "f.log" (some "x") (by decide) (by decide)
    (Or.inr ⟨by decide, by decide, by decide⟩) (by decide)

/-! ### Claim C3 -/

/-- Filesystem for the C3 counterexample: directory `d` holds files
`a.log` and `z.log` and a regular file named `bak`. -/
def fsC3 : FS :=
  ⟨[(["d", "a.log"], some "A"), (["d", "bak"], some "X"),
    (["d", "z.log"], some "Z")], [["d"]], []⟩

/-- C3 counterexample: when creating the `bak` directory fails for
`d/a.log` (a file named `bak` is in the way), the whole batch aborts with
a panic instead of reporting a per-file diagnostic, so the remaining file
`d/z.log` of the batch is never processed and the run produces no result
at all. -/
theorem backup_batch_aborts_on_bak_failure :
    runEntries .Backup fsC3 [["d", "a.log"], ["d", "z.log"]] =
      .error "could not create backup dir" := by
  rfl

/-- C3 (amended): when creation of the `bak` backup directory fails during
a Backup of file `F` (because `bak` already exists as a non-directory
entry), the process terminates fatally with the panic message
`could not create backup dir`; the failure is not surfaced as a per-item
diagnostic and the remaining files of the batch are not processed. -/
theorem backup_bak_failure_fatal (fs : FS) (p : FPath) (n : String)
    (rest : List FPath)
    (hn : p.getLast? = some n)
    (hpd : fs.isDir p = false)
    (hnd : fs.isDir (bakDir p) = false)
    (hf : (fs.fileData (bakDir p)).isSome = true) :
    runEntries .Backup fs (p :: rest) = .error "could not create backup dir" := by
  simp [runEntries, hpd, backup_log_file_createDir_fail fs p n hn hnd hf]

/-- Witness for the amended C3 at a concrete filesystem and batch. -/
theorem backup_bak_failure_fatal_witness :
    runEntries .Backup fsC3 [["d", "a.log"], ["d", "z.log"]] =
      .error "could not create backup dir" ∧
    (fsC3.fileData (bakDir ["d", "a.log"])).isSome = true :=
  ⟨backup_bak_failure_fatal fsC3 ["d", "a.log"] "a.log" [["d", "z.log"]]
    (by decide) (by decide) (by decide) (by decide), by decide⟩

/-! ### Claim C5 -/

/-- C5: if the backup destination `parent/bak/filename` already holds a
previous backup, backing up the (recreated) source again succeeds without
error and the destination afterwards holds the data of the second source.
The statement runs Backup twice: the first invocation lands the data `d1`
at the destination, the source is then recreated with data `d2`, and the
second invocation replaces the destination data with `d2`. -/
theorem backup_twice_replaces (fs : FS) (p : FPath) (n : String)
    (d1 d2 : Option String)
    (hn : p.getLast? = some n)
    (hsrc : fs.fileData p = some d1)
    (hbak : fs.isDir (bakDir p) = true ∨
      (fs.fileData (bakDir p) = none ∧ fs.isDir (bakDir p) = false ∧
        fs.isDir p.dropLast = true))
    (hdst : fs.isDir (bakDir p ++ [n]) = false) :
    ∃ fs1 fs3,
      backup_log_file fs p =
        .ok (fs1, ["Moving " ++ n ++ "...", "Moved."]) ∧
      fs1.fileData (bakDir p ++ [n]) = some d1 ∧
      backup_log_file (fs1.setFile p d2) p =
        .ok (fs3, ["Moving " ++ n ++ "...", "Moved."]) ∧
      fs3.fileData (bakDir p ++ [n]) = some d2 ∧
      fs3.fileData p = none := by
  obtain ⟨fs1, h1, -, hd1, hbak1, hdst1, -⟩ :=
    backup_success fs p n d1 hn hsrc hbak hdst
  obtain ⟨fs3, h3, hp3, hd3, -, -, -⟩ :=
    backup_success (fs1.setFile p d2) p n d2 hn
      (FS.fileData_setFile_self fs1 p d2)
      (Or.inl (by rw [FS.isDir_setFile]; exact hbak1))
      (by rw [FS.isDir_setFile]; exact hdst1)
  exact ⟨fs1, fs3, h1, hd1, h3, hd3, hp3⟩

/-- Witness for C5 at a concrete filesystem. -/
theorem backup_twice_replaces_witness :
    ∃ fs1 fs3,
      backup_log_file ⟨[(["d", "f.log"], some "one")], [["d"]], []⟩ ["d", "f.log"] =
        .ok (fs1, ["Moving " ++ "f.log" ++ "...", "Moved."]) ∧
      fs1.fileData (bakDir ["d", "f.log"] ++ ["f.log"]) = some (some "one") ∧
      backup_log_file (fs1.setFile ["d", "f.log"] (some "two")) ["d", "f.log"] =
        .ok (fs3, ["Moving " ++ "f.log" ++ "...", "Moved."]) ∧
      fs3.fileData (bakDir ["d", "f.log"] ++ ["f.log"]) = some (some "two") ∧
      fs3.fileData ["d", "f.log"] = none :=
  backup_twice_replaces ⟨[(["d", "f.log"], some "one")], [["d"]], []⟩
    ["d", "f.log"] "f.log" (some "one") (some "two") (by decide) (by decide)
    (Or.inr ⟨by decide, by decide, by decide⟩) (by decide)

/-! ### Behavior of the View operation -/

/-- Once the directory enumeration has succeeded, every branch of
`view_log_files` returns `.ok`. -/
theorem view_ok_of_isDir (fs : FS) (log_dir : FPath) (stdin : String)
    (h : fs.isDir log_dir = true) :
    ∃ out, view_log_files fs log_dir stdin = .ok out := by
  simp only [view_log_files, h, Bool.true_eq_false, if_false]
  split
  · exact ⟨_, rfl⟩
  · split
    · exact ⟨_, rfl⟩
    · split
      · exact ⟨_, rfl⟩
      · split
        · exact ⟨_, rfl⟩
        · exact ⟨_, rfl⟩

/-- `view_log_files` returns an error only when the initial directory read
fails. -/
theorem view_error_isDir (fs : FS) (log_dir : FPath) (stdin : String)
    (e : String) (h : view_log_files fs log_dir stdin = .error e) :
    fs.isDir log_dir = false := by
  cases hd : fs.isDir log_dir with
  | false => rfl
  | true =>
    obtain ⟨out, ho⟩ := view_ok_of_isDir fs log_dir stdin hd
    rw [ho] at h
    exact absurd h (by simp)

/-! ### Claim C4 -/

/-- C4: for every directory whose enumeration succeeds and every line of
standard input, View returns success; it returns an I/O error only when
the initial directory read fails. -/
theorem view_succeeds_unless_enumeration_fails (fs : FS) (log_dir : FPath)
    (stdin : String) :
    (fs.isDir log_dir = true →
      ∃ out, view_log_files fs log_dir stdin = .ok out) ∧
    (∀ e, view_log_files fs log_dir stdin = .error e →
      fs.isDir log_dir = false) := by
  exact ⟨view_ok_of_isDir fs log_dir stdin,
    fun e he => view_error_isDir fs log_dir stdin e he⟩

/-- Witness for C4: a directory with one unreadable file, stdin selecting
it; View still succeeds. -/
theorem view_succeeds_unless_enumeration_fails_witness :
    ∃ out,
      view_log_files ⟨[(["d", "f.log"], none)], [["d"]], []⟩ ["d"] "1\n" =
        .ok out :=
  (view_succeeds_unless_enumeration_fails
    ⟨[(["d", "f.log"], none)], [["d"]], []⟩ ["d"] "1\n").1 (by decide)

/-! ### Claim C6 -/

/-- C6: on a non-empty listing, stdin that does not parse as a number
produces the invalid-input notice, and a parsed number that is zero or
exceeds the file count produces the invalid-selection notice stating the
range 1..count; either way View returns successfully and reads no file
content (the second result component, the list of paths passed to
read_to_string, is empty). -/
theorem view_invalid_selection (fs : FS) (log_dir : FPath) (stdin : String)
    (hdir : fs.isDir log_dir = true)
    (hne : viewFiles fs log_dir ≠ []) :
    (parseUsize (trimString stdin) = none →
      view_log_files fs log_dir stdin = .ok
        (viewListing (viewFiles fs log_dir) ++
          ["Enter the number of the file you want to view: ",
           "Invalid input. Please enter a number."], [])) ∧
    (∀ k, parseUsize (trimString stdin) = some k →
      (k = 0 ∨ (viewFiles fs log_dir).length < k) →
      view_log_files fs log_dir stdin = .ok
        (viewListing (viewFiles fs log_dir) ++
          ["Enter the number of the file you want to view: ",
           "Invalid selection. Please choose a number between 1 and " ++
             toString (viewFiles fs log_dir).length ++ "."], [])) := by
  have hemp : (viewFiles fs log_dir).isEmpty = false := by
    simp [List.isEmpty_iff, hne]
  constructor
  · intro hp
    simp [view_log_files, hdir, hemp, hp]
  · intro k hk hrange
    simp [view_log_files, hdir, hemp, hk, hrange]

/-- Witness for C6: two files, stdin `0`. -/
theorem view_invalid_selection_witness :
    view_log_files
        ⟨[(["d", "a.log"], some "A"), (["d", "b.log"], some "B")], [["d"]], []⟩
        ["d"] "0\n" =
      .ok
        (viewListing (viewFiles
            ⟨[(["d", "a.log"], some "A"), (["d", "b.log"], some "B")], [["d"]], []⟩
            ["d"]) ++
          ["Enter the number of the file you want to view: ",
           "Invalid selection. Please choose a number between 1 and " ++
             toString (viewFiles
               ⟨[(["d", "a.log"], some "A"), (["d", "b.log"], some "B")], [["d"]], []⟩
               ["d"]).length ++ "."], []) :=
  (view_invalid_selection
      ⟨[(["d", "a.log"], some "A"), (["d", "b.log"], some "B")], [["d"]], []⟩
      ["d"] "0\n" (by decide) (by decide)).2 0 (by decide) (Or.inl rfl)

/-! ### Claim C7 -/

/-- C7: an in-range selection `k` (1 ≤ k ≤ count) resolves the
(k−1)-indexed file of the enumeration-ordered listing, and View prints a
header naming it, a separator line of exactly 50 `=` characters, then the
exact file content — or, when the read fails, an error notice carrying the
underlying error description.  The selected path is exactly the one file
whose content is read. -/
theorem view_in_range_selection (fs : FS) (log_dir : FPath) (stdin : String)
    (k : Nat)
    (hdir : fs.isDir log_dir = true)
    (hk : parseUsize (trimString stdin) = some k)
    (h1 : 1 ≤ k)
    (h2 : k ≤ (viewFiles fs log_dir).length) :
    ∃ final,
      view_log_files fs log_dir stdin = .ok
        (viewListing (viewFiles fs log_dir) ++
          ["Enter the number of the file you want to view: ",
           "\nContents of " ++
             fileNameDisplay ((viewFiles fs log_dir).getD (k - 1) []) ++ ":",
           sepLine, final],
         [(viewFiles fs log_dir).getD (k - 1) []]) ∧
      (∀ c, fs.readToString ((viewFiles fs log_dir).getD (k - 1) []) = .ok c →
        final = c) ∧
      (∀ e, fs.readToString ((viewFiles fs log_dir).getD (k - 1) []) =
          .error e → final = "Error reading file: " ++ e) ∧
      sepLine.length = 50 ∧
      sepLine.data.all (fun ch => ch = '=') = true := by
  have hne : viewFiles fs log_dir ≠ [] := by
    intro h
    rw [h] at h2
    simp at h2
    omega
  have hemp : (viewFiles fs log_dir).isEmpty = false := by
    simp [List.isEmpty_iff, hne]
  have hrange : ¬(k = 0 ∨ (viewFiles fs log_dir).length < k) := by
    push_neg
    omega
  simp only [List.getD_eq_getElem?_getD]
  cases hr : fs.readToString ((viewFiles fs log_dir)[k - 1]?.getD []) with
  | ok c =>
    refine ⟨c, ?_, ?_, ?_, by decide, by decide⟩
    · simp [view_log_files, hdir, hemp, hk, hrange, hr]
    · intro c' hc'
      exact Except.ok.inj hc'
    · intro e he
      exact absurd he (by simp)
  | error e =>
    refine ⟨"Error reading file: " ++ e, ?_, ?_, ?_, by decide, by decide⟩
    · simp [view_log_files, hdir, hemp, hk, hrange, hr]
    · intro c' hc'
      exact absurd hc' (by simp)
    · intro e' he'
      rw [Except.error.inj he']

/-- Witness for C7: two files, stdin `2`, the second file is read. -/
theorem view_in_range_selection_witness :
    ∃ final,
      view_log_files
          ⟨[(["d", "a.log"], some "A"), (["d", "b.log"], some "B")], [["d"]], []⟩
          ["d"] "2\n" = .ok
        (viewListing (viewFiles
            ⟨[(["d", "a.log"], some "A"), (["d", "b.log"], some "B")], [["d"]], []⟩
            ["d"]) ++
          ["Enter the number of the file you want to view: ",
           "\nContents of " ++
             fileNameDisplay ((viewFiles
               ⟨[(["d", "a.log"], some "A"), (["d", "b.log"], some "B")], [["d"]], []⟩
               ["d"]).getD (2 - 1) []) ++ ":",
           sepLine, final],
         [(viewFiles
             ⟨[(["d", "a.log"], some "A"), (["d", "b.log"], some "B")], [["d"]], []⟩
             ["d"]).getD (2 - 1) []]) ∧
      (∀ c, FS.readToString
          ⟨[(["d", "a.log"], some "A"), (["d", "b.log"], some "B")], [["d"]], []⟩
          ((viewFiles
            ⟨[(["d", "a.log"], some "A"), (["d", "b.log"], some "B")], [["d"]], []⟩
            ["d"]).getD (2 - 1) []) = .ok c → final = c) ∧
      (∀ e, FS.readToString
          ⟨[(["d", "a.log"], some "A"), (["d", "b.log"], some "B")], [["d"]], []⟩
          ((viewFiles
            ⟨[(["d", "a.log"], some "A"), (["d", "b.log"], some "B")], [["d"]], []⟩
            ["d"]).getD (2 - 1) []) = .error e →
        final = "Error reading file: " ++ e) ∧
      sepLine.length = 50 ∧
      sepLine.data.all (fun ch => ch = '=') = true :=
  view_in_range_selection
    ⟨[(["d", "a.log"], some "A"), (["d", "b.log"], some "B")], [["d"]], []⟩
    ["d"] "2\n" 2 (by decide) (by decide) (by decide) (by decide)

/-! ### Claim C8 -/

/-- A console line of the shape `- <file-name>` (the List operation's
per-file line). -/
def isListingLine (l : String) : Bool :=
  match l.data with
  | '-' :: ' ' :: _ => true
  | _ => false

/-- A console line of the shape of the directory-skip notice. -/
def isSkipNotice (l : String) : Bool :=
  match l.data with
  | 'I' :: 'g' :: 'n' :: 'o' :: 'r' :: 'i' :: 'n' :: 'g' :: _ => true
  | _ => false

theorem isListingLine_file (n : String) : isListingLine ("- " ++ n) = true := rfl

theorem isListingLine_ignore (q : FPath) :
    isListingLine (ignoreLine q) = false := rfl

theorem isSkipNotice_ignore (q : FPath) :
    isSkipNotice (ignoreLine q) = true := rfl

theorem isSkipNotice_file (n : String) : isSkipNotice ("- " ++ n) = false := rfl

/-- The line the List run prints for one directory entry. -/
def listEntryLine (fs : FS) (q : FPath) : String :=
  if fs.isDir q then ignoreLine q else "- " ++ fileNameDisplay q

/-- A List run leaves the filesystem unchanged and prints exactly one line
per entry: a skip notice for a directory, a `- <file-name>` line for a
file. -/
theorem runEntries_list_eq (fs : FS) (qs : List FPath)
    (h : ∀ q ∈ qs, q ≠ []) :
    runEntries .List fs qs = .ok (fs, qs.map (listEntryLine fs)) := by
  induction qs with
  | nil => rfl
  | cons q rest ih =>
    have hq : q ≠ [] := h q (by simp)
    have hrest : ∀ r ∈ rest, r ≠ [] := fun r hr => h r (by simp [hr])
    obtain ⟨n, hn⟩ : ∃ n, q.getLast? = some n := by
      cases hg : q.getLast? with
      | none => exact absurd (List.getLast?_eq_none_iff.1 hg) hq
      | some n => exact ⟨n, rfl⟩
    have hname : fileNameDisplay q = n := by simp [fileNameDisplay, hn]
    cases hd : fs.isDir q with
    | true => simp [runEntries, hd, ih hrest, listEntryLine]
    | false =>
      simp [runEntries, hd, list_log_file, hn, ih hrest, listEntryLine, hname]

/-- C8: a List run over entries with `N` non-directory entries and `M`
directory entries emits exactly `N` listing lines of the form
`- <file-name>` — one per non-directory entry, in enumeration order — and
exactly `M` skip notices, with no listing line for a directory and no skip
notice for a file; every printed line is one or the other. -/
theorem list_emits_listing_and_skips (fs : FS) (qs : List FPath)
    (h : ∀ q ∈ qs, q ≠ []) :
    ∃ lines,
      runEntries .List fs qs = .ok (fs, lines) ∧
      lines.filter isListingLine =
        (qs.filter (fun q => !(fs.isDir q))).map
          (fun q => "- " ++ fileNameDisplay q) ∧
      lines.filter isSkipNotice =
        (qs.filter (fun q => fs.isDir q)).map ignoreLine ∧
      lines.countP isListingLine = qs.countP (fun q => !(fs.isDir q)) ∧
      lines.countP isSkipNotice = qs.countP (fun q => fs.isDir q) ∧
      lines.length = qs.length := by
  refine ⟨qs.map (listEntryLine fs), runEntries_list_eq fs qs h, ?_, ?_, ?_, ?_,
    by simp⟩
  · clear h
    induction qs with
    | nil => rfl
    | cons q rest ih =>
      cases hd : fs.isDir q with
      | true => simp [listEntryLine, hd, isListingLine_ignore, ih]
      | false => simp [listEntryLine, hd, isListingLine_file, ih]
  · clear h
    induction qs with
    | nil => rfl
    | cons q rest ih =>
      cases hd : fs.isDir q with
      | true => simp [listEntryLine, hd, isSkipNotice_ignore, ih]
      | false => simp [listEntryLine, hd, isSkipNotice_file, ih]
  · clear h
    induction qs with
    | nil => rfl
    | cons q rest ih =>
      cases hd : fs.isDir q with
      | true => simp [listEntryLine, hd, isListingLine_ignore, ih]
      | false => simp [listEntryLine, hd, isListingLine_file, ih]
  · clear h
    induction qs with
    | nil => rfl
    | cons q rest ih =>
      cases hd : fs.isDir q with
      | true => simp [listEntryLine, hd, isSkipNotice_ignore, ih]
      | false => simp [listEntryLine, hd, isSkipNotice_file, ih]

/-- Witness for C8: two files and one subdirectory. -/
theorem list_emits_listing_and_skips_witness :
    ∃ lines,
      runEntries .List ⟨[(["d", "a.log"], some "A"), (["d", "b.log"], some "B")],
          [["d"], ["d", "sub"]], []⟩
        [["d", "a.log"], ["d", "sub"], ["d", "b.log"]] =
        .ok (⟨[(["d", "a.log"], some "A"), (["d", "b.log"], some "B")],
          [["d"], ["d", "sub"]], []⟩, lines) ∧
      lines.filter isListingLine =
        ([["d", "a.log"], ["d", "sub"], ["d", "b.log"]].filter
          (fun q => !(FS.isDir ⟨[(["d", "a.log"], some "A"),
            (["d", "b.log"], some "B")], [["d"], ["d", "sub"]], []⟩ q))).map
          (fun q => "- " ++ fileNameDisplay q) ∧
      lines.filter isSkipNotice =
        ([["d", "a.log"], ["d", "sub"], ["d", "b.log"]].filter
          (fun q => FS.isDir ⟨[(["d", "a.log"], some "A"),
            (["d", "b.log"], some "B")], [["d"], ["d", "sub"]], []⟩ q)).map
          ignoreLine ∧
      lines.countP isListingLine =
        [["d", "a.log"], ["d", "sub"], ["d", "b.log"]].countP
          (fun q => !(FS.isDir ⟨[(["d", "a.log"], some "A"),
            (["d", "b.log"], some "B")], [["d"], ["d", "sub"]], []⟩ q)) ∧
      lines.countP isSkipNotice =
        [["d", "a.log"], ["d", "sub"], ["d", "b.log"]].countP
          (fun q => FS.isDir ⟨[(["d", "a.log"], some "A"),
            (["d", "b.log"], some "B")], [["d"], ["d", "sub"]], []⟩ q) ∧
      lines.length = [["d", "a.log"], ["d", "sub"], ["d", "b.log"]].length :=
  list_emits_listing_and_skips
    ⟨[(["d", "a.log"], some "A"), (["d", "b.log"], some "B")],
      [["d"], ["d", "sub"]], []⟩
    [["d", "a.log"], ["d", "sub"], ["d", "b.log"]] (by decide)

/-! ### Fatal outcomes of a whole run -/

/-- The only panic `Config::new` can raise. -/
theorem config_new_error_msg (args : List String) (m : String)
    (h : Config.new args = .error m) :
    m = "not enough arguments (you must provide a FFlogs directory path" := by
  unfold Config.new at h
  split at h
  · exact (Except.error.inj h).symm
  · exact absurd h (by simp)

/-- The only panic `backup_log_file` can raise on a path with a final
component is the backup-directory creation failure. -/
theorem backup_error_msg (fs : FS) (p : FPath) (n m : String)
    (hn : p.getLast? = some n)
    (h : backup_log_file fs p = .error m) :
    m = "could not create backup dir" := by
  simp only [backup_log_file, hn] at h
  cases hb : fs.isDir (bakDir p) with
  | true =>
    simp only [hb, if_true] at h
    cases hr : fs.rename p (bakDir p ++ [n]) <;> simp [hr] at h
  | false =>
    simp only [hb, Bool.false_eq_true, if_false] at h
    cases hc : fs.createDir (bakDir p) with
    | ok fs1 =>
      simp only [hc] at h
      cases hr : fs1.rename p (bakDir p ++ [n]) <;> simp [hr] at h
    | error e =>
      simp only [hc] at h
      exact (Except.error.inj h).symm

/-- The only panic the enumeration loop can raise, when no entry is the
empty path and the operation is not View, is the backup-directory
creation failure. -/
theorem runEntries_error_msg (op : Operation) (fs : FS) (qs : List FPath)
    (m : String) (hop : op ≠ Operation.View)
    (h : ∀ q ∈ qs, q ≠ [])
    (he : runEntries op fs qs = .error m) :
    m = "could not create backup dir" := by
  induction qs generalizing fs with
  | nil => simp [runEntries] at he
  | cons q rest ih =>
    have hq : q ≠ [] := h q (by simp)
    have hrest : ∀ r ∈ rest, r ≠ [] := fun r hr => h r (by simp [hr])
    obtain ⟨n, hn⟩ : ∃ n, q.getLast? = some n := by
      cases hg : q.getLast? with
      | none => exact absurd (List.getLast?_eq_none_iff.1 hg) hq
      | some n => exact ⟨n, rfl⟩
    cases hd : fs.isDir q with
    | true =>
      simp only [runEntries, hd, if_true] at he
      cases hrec : runEntries op fs rest with
      | error m2 =>
        rw [hrec] at he
        exact ih fs hrest (Except.error.inj he ▸ hrec)
      | ok out => rw [hrec] at he; exact absurd he (by simp)
    | false =>
      simp only [runEntries, hd, Bool.false_eq_true, if_false] at he
      cases op with
      | View => exact absurd rfl hop
      | List =>
        simp only [list_log_file, hn] at he
        cases hrec : runEntries .List fs rest with
        | error m2 =>
          rw [hrec] at he
          exact ih fs hrest (Except.error.inj he ▸ hrec)
        | ok out => rw [hrec] at he; exact absurd he (by simp)
      | Delete =>
        cases hdel : delete_log_file fs q with
        | mk fs1 ls =>
          simp only [hdel] at he
          cases hrec : runEntries .Delete fs1 rest with
          | error m2 =>
            rw [hrec] at he
            exact ih fs1 hrest (Except.error.inj he ▸ hrec)
          | ok out => rw [hrec] at he; exact absurd he (by simp)
      | Backup =>
        cases hb : backup_log_file fs q with
        | error m1 =>
          simp only [hb] at he
          exact Except.error.inj he ▸ backup_error_msg fs q n m1 hn hb
        | ok out =>
          obtain ⟨fs1, ls⟩ := out
          simp only [hb] at he
          cases hrec : runEntries .Backup fs1 rest with
          | error m2 =>
            rw [hrec] at he
            exact ih fs1 hrest (Except.error.inj he ▸ hrec)
          | ok out2 => rw [hrec] at he; exact absurd he (by simp)

/-! ### Claim C2 -/

/-- Filesystem used in the closed run counterexamples and witnesses. -/
def fsEmpty : FS := ⟨[], [], []⟩

/-- C2 counterexample: a run with a present home variable, where the
target directory is never even examined, terminates fatally — the panic
on fewer than three command-line arguments — a fatal case outside the
three admitted by the claim (invalid target directory, missing platform
variable, enumeration-level I/O error). -/
theorem main_fatal_without_claimed_cause :
    mainRun ["prog", "list"] (some "/home/u") fsEmpty "" =
      .panicked "not enough arguments (you must provide a FFlogs directory path" := by
  rfl

/-- Fatal outcomes of the dispatch part of `main`: an I/O error return
happens only when the target path is not a directory or its enumeration
fails, and a panic only with the backup-directory creation message. -/
theorem dispatchRun_fatal (op : Operation) (fs : FS) (path : FPath)
    (stdin : String) :
    (∀ e, dispatchRun op fs path stdin = .ioError e →
      fs.isDir path = false ∨ fs.readDirFailsAt path = true) ∧
    (∀ m, dispatchRun op fs path stdin = .panicked m →
      m = "could not create backup dir") := by
  constructor
  · intro e he
    unfold dispatchRun at he
    split at he
    · next hC => exact Or.inl hC
    · next hC =>
      cases op with
      | View =>
        cases hv : view_log_files fs path stdin with
        | error e2 => exact Or.inl (view_error_isDir _ _ _ _ hv)
        | ok out => simp [hv] at he
      | List =>
        cases hf : fs.readDirFailsAt path with
        | true => exact Or.inr rfl
        | false =>
          simp only [hf, Bool.false_eq_true, if_false] at he
          cases hr : runEntries .List fs (fs.children path) with
          | error m1 => simp [hr] at he
          | ok out => simp [hr] at he
      | Delete =>
        cases hf : fs.readDirFailsAt path with
        | true => exact Or.inr rfl
        | false =>
          simp only [hf, Bool.false_eq_true, if_false] at he
          cases hr : runEntries .Delete fs (fs.children path) with
          | error m1 => simp [hr] at he
          | ok out => simp [hr] at he
      | Backup =>
        cases hf : fs.readDirFailsAt path with
        | true => exact Or.inr rfl
        | false =>
          simp only [hf, Bool.false_eq_true, if_false] at he
          cases hr : runEntries .Backup fs (fs.children path) with
          | error m1 => simp [hr] at he
          | ok out => simp [hr] at he
  · intro m hm
    unfold dispatchRun at hm
    split at hm
    · next hC => simp at hm
    · next hC =>
      cases op with
      | View =>
        cases hv : view_log_files fs path stdin with
        | error e2 => simp [hv] at hm
        | ok out => simp [hv] at hm
      | List =>
        cases hf : fs.readDirFailsAt path with
        | true => simp [hf] at hm
        | false =>
          simp only [hf, Bool.false_eq_true, if_false] at hm
          cases hr : runEntries .List fs (fs.children path) with
          | error m1 =>
            simp [hr] at hm
            exact hm ▸ runEntries_error_msg .List fs _ m1 (by simp)
              (FS.children_ne_nil fs _) hr
          | ok out => simp [hr] at hm
      | Delete =>
        cases hf : fs.readDirFailsAt path with
        | true => simp [hf] at hm
        | false =>
          simp only [hf, Bool.false_eq_true, if_false] at hm
          cases hr : runEntries .Delete fs (fs.children path) with
          | error m1 =>
            simp [hr] at hm
            exact hm ▸ runEntries_error_msg .Delete fs _ m1 (by simp)
              (FS.children_ne_nil fs _) hr
          | ok out => simp [hr] at hm
      | Backup =>
        cases hf : fs.readDirFailsAt path with
        | true => simp [hf] at hm
        | false =>
          simp only [hf, Bool.false_eq_true, if_false] at hm
          cases hr : runEntries .Backup fs (fs.children path) with
          | error m1 =>
            simp [hr] at hm
            exact hm ▸ runEntries_error_msg .Backup fs _ m1 (by simp)
              (FS.children_ne_nil fs _) hr
          | ok out => simp [hr] at hm

/-- C2 (amended): a run terminates fatally only for one of these causes —
the home environment variable is missing, fewer than three command-line
arguments were given, the target directory is invalid, an
enumeration-level I/O error occurs, or creation of a `bak` backup
directory fails during a Backup; every other run (including runs with
reported per-file failures) completes with success. -/
theorem mainRun_fatal_cases (args : List String) (env : Option String)
    (fs : FS) (stdin : String) :
    (∀ e, mainRun args env fs stdin = .ioError e →
      fs.isDir (splitPath (resolvedDirStr args env)) = false ∨
      fs.readDirFailsAt (splitPath (resolvedDirStr args env)) = true) ∧
    (∀ m, mainRun args env fs stdin = .panicked m →
      m = "No HOME directory" ∨
      m = "not enough arguments (you must provide a FFlogs directory path" ∨
      m = "could not create backup dir") := by
  cases env with
  | none =>
    constructor
    · intro e he
      exact absurd he (by simp [mainRun])
    · intro m hm
      simp only [mainRun] at hm
      exact Or.inl (MainResult.panicked.inj hm).symm
  | some a =>
    by_cases hlen : args.length < 3
    · have hc : Config.new args =
          .error "not enough arguments (you must provide a FFlogs directory path" := by
        simp [Config.new, hlen]
      constructor
      · intro e he
        exact absurd he (by simp [mainRun, hc])
      · intro m hm
        simp only [mainRun, hc] at hm
        exact Or.inr (Or.inl (MainResult.panicked.inj hm).symm)
    · have hc : Config.new args =
          .ok ⟨parseOperation (args.getD 1 ""), args.getD 2 ""⟩ := by
        simp [Config.new, hlen]
      have hrun : mainRun args (some a) fs stdin =
          dispatchRun (parseOperation (args.getD 1 "")) fs
            (splitPath (resolvedDirStr args (some a))) stdin := by
        simp [mainRun, hc, resolvedDirStr]
      constructor
      · intro e he
        rw [hrun] at he
        exact (dispatchRun_fatal _ _ _ _).1 e he
      · intro m hm
        rw [hrun] at hm
        exact Or.inr (Or.inr ((dispatchRun_fatal _ _ _ _).2 m hm))

/-- A directory that exists but whose enumeration fails, for the C2
witness. -/
def fsEnumFail : FS := ⟨[], [["d"]], [["d"]]⟩

/-- Witness for the amended C2, applying it to a run that panics on
missing arguments and to a run whose enumeration of a valid target
directory fails. -/
theorem mainRun_fatal_cases_witness :
    ("not enough arguments (you must provide a FFlogs directory path" =
        "No HOME directory" ∨
      ("not enough arguments (you must provide a FFlogs directory path" : String) =
        "not enough arguments (you must provide a FFlogs directory path" ∨
      ("not enough arguments (you must provide a FFlogs directory path" : String) =
        "could not create backup dir") ∧
    (fsEnumFail.isDir
        (splitPath (resolvedDirStr ["prog", "list", "/d"] (some "/home/u"))) =
          false ∨
      fsEnumFail.readDirFailsAt
        (splitPath (resolvedDirStr ["prog", "list", "/d"] (some "/home/u"))) =
          true) :=
  ⟨(mainRun_fatal_cases ["prog", "list"] (some "/home/u") fsEmpty "").2
      "not enough arguments (you must provide a FFlogs directory path" rfl,
    (mainRun_fatal_cases ["prog", "list", "/d"] (some "/home/u") fsEnumFail "").1
      "Permission denied" rfl⟩

/-! ### Claim C9 -/

/-- C9 counterexample: naming only a subcommand does not fall back to the
`default` token — `Config::new` panics on fewer than three arguments. -/
theorem config_requires_three_args :
    Config.new ["program", "list"] =
      .error "not enough arguments (you must provide a FFlogs directory path" := by
  rfl

/-- C9 (amended): the directory-path argument is mandatory, not optional —
an invocation naming only a subcommand terminates fatally with the
not-enough-arguments panic instead of running against a default
directory.  When the argument is supplied and is the literal token
`default`, it resolves to the platform path under the home variable;
otherwise it is used verbatim. -/
theorem config_dir_argument_mandatory :
    (∀ prog op (envh : String) (fs : FS) (stdin : String),
      mainRun [prog, op] (some envh) fs stdin =
        .panicked "not enough arguments (you must provide a FFlogs directory path") ∧
    (∀ prog op (rest : List String) (envh : String),
      resolvedDirStr (prog :: op :: "default" :: rest) (some envh) =
        envh ++ defaultSuffix) ∧
    (∀ prog op d (rest : List String) (env : Option String), d ≠ "default" →
      resolvedDirStr (prog :: op :: d :: rest) env = d) := by
  refine ⟨?_, ?_, ?_⟩
  · intro prog op envh fs stdin
    simp [mainRun, Config.new]
  · intro prog op rest envh
    simp [resolvedDirStr, defaultSuffix]
  · intro prog op d rest env hne
    simp [resolvedDirStr, hne]

/-- Witness for the amended C9 at concrete arguments. -/
theorem config_dir_argument_mandatory_witness :
    mainRun ["p", "list"] (some "/h") fsEmpty "" =
        .panicked "not enough arguments (you must provide a FFlogs directory path" ∧
      resolvedDirStr ["p", "list", "x"] (some "/h") = "x" :=
  ⟨config_dir_argument_mandatory.1 "p" "list" "/h" fsEmpty "",
    config_dir_argument_mandatory.2.2 "p" "list" "x" [] (some "/h") (by decide)⟩

/-! ### Claim C10 -/

/-- C10: any operation argument other than exactly `backup`, `delete`,
`list` and `view` makes `Config::new` succeed with the List operation
selected. -/
theorem config_unknown_operation_is_list (prog s d : String)
    (rest : List String)
    (h1 : s ≠ "backup") (h2 : s ≠ "delete") (h3 : s ≠ "list")
    (h4 : s ≠ "view") :
    Config.new (prog :: s :: d :: rest) = .ok ⟨Operation.List, d⟩ := by
  have hop : parseOperation s = .List := by
    unfold parseOperation
    split
    · simp_all
    · simp_all
    · simp_all
    · simp_all
    · rfl
  simp [Config.new, hop]

/-- Witness for C10 with the mistyped subcommand `lst`. -/
theorem config_unknown_operation_is_list_witness :
    Config.new ["program", "lst", "/p/logs"] = .ok ⟨Operation.List, "/p/logs"⟩ :=
  config_unknown_operation_is_list "program" "lst" "/p/logs" []
    (by decide) (by decide) (by decide) (by decide)

end FFLog
